import Mathlib

/-!
Shallow embedding of the `AddStudent` three-step wizard from
`src/frontend/src/components/AddStudent.tsx`.

JavaScript numbers are modelled as `JSNum` (rationals extended with NaN and
the two infinities); the float64 rounding of in-range decimal literals is
not modelled, since every comparison in the code is against the exact
constants 0, 10 and 100.  String parsing (`parseFloat`, `parseInt`,
`Number`) follows the ECMAScript prefix/whole-string semantics on
whitespace, signs, decimal and hexadecimal digits, fractions, exponents and
`Infinity`; the legacy octal/binary `Number` forms are included as well.
-/

/-- JavaScript number: a rational, NaN, or ±Infinity. -/
inductive JSNum where
  | nan : JSNum
  | inf : JSNum
  | ninf : JSNum
  | num : ℚ → JSNum
deriving Repr, DecidableEq

namespace JSNum

/-- `a < b` for a JS number against a rational literal (NaN compares false). -/
def ltq : JSNum → ℚ → Bool
  | nan, _ => false
  | inf, _ => false
  | ninf, _ => true
  | num a, b => decide (a < b)

/-- `a > b` for a JS number against a rational literal (NaN compares false). -/
def gtq : JSNum → ℚ → Bool
  | nan, _ => false
  | inf, _ => true
  | ninf, _ => false
  | num a, b => decide (a > b)

/-- JS truthiness of a number: NaN and 0 are falsy, everything else truthy. -/
def truthy : JSNum → Bool
  | nan => false
  | inf => true
  | ninf => true
  | num a => decide (a ≠ 0)

/-- `v || 0` on JS numbers: falsy values (NaN, 0) are replaced by 0. -/
def orZero (v : JSNum) : JSNum :=
  if v.truthy then v else num 0

end JSNum

/-- ECMAScript whitespace characters relevant to string trimming. -/
def jsIsWs (c : Char) : Bool :=
  c = ' ' || c = '\t' || c = '\n' || c = '\r' || c = '\x0b' || c = '\x0c'

/-- Numeric value of a list of decimal digits. -/
def digitsToNat (ds : List Char) : Nat :=
  ds.foldl (fun a c => a * 10 + (c.toNat - 48)) 0

/-- Hexadecimal digit test. -/
def isHexDigit (c : Char) : Bool :=
  c.isDigit || ('a' ≤ c && c ≤ 'f') || ('A' ≤ c && c ≤ 'F')

/-- Value of a hexadecimal digit. -/
def hexDigitVal (c : Char) : Nat :=
  if c.isDigit then c.toNat - 48
  else if 'a' ≤ c && c ≤ 'f' then c.toNat - 87
  else c.toNat - 55

/-- Numeric value of a list of digits in a given base. -/
def digitsToNatBase (base : Nat) (ds : List Char) : Nat :=
  ds.foldl (fun a c => a * base + hexDigitVal c) 0

/-- Split an optional leading sign; returns (negative?, rest). -/
def splitSign : List Char → Bool × List Char
  | '-' :: cs => (true, cs)
  | '+' :: cs => (false, cs)
  | cs => (false, cs)

/-- Apply a JS sign to a JS number. -/
def applySign (neg : Bool) : JSNum → JSNum
  | .nan => .nan
  | .inf => if neg then .ninf else .inf
  | .ninf => if neg then .inf else .ninf
  | .num q => .num (if neg then -q else q)

/-- The character list spelling `Infinity`. -/
def infinityChars : List Char := ['I', 'n', 'f', 'i', 'n', 'i', 't', 'y']

/-- Powers of ten, written without type-class powers so that kernel
reduction stays unobstructed. -/
def pow10 : Nat → Nat
  | 0 => 1
  | n + 1 => 10 * pow10 n

/-- Mantissa value from integer digits and fraction digits:
`ints.fracs` as the exact rational `(ints*10^k + fracs) / 10^k`. -/
def mantissaVal (ints fracs : List Char) : ℚ :=
  mkRat (Int.ofNat (digitsToNat ints * pow10 fracs.length + digitsToNat fracs))
    (pow10 fracs.length)

/-- Scale a rational by a signed power of ten. -/
def scalePow10 (q : ℚ) (eneg : Bool) (e : Nat) : ℚ :=
  if eneg then mkRat q.num (q.den * pow10 e)
  else mkRat (q.num * Int.ofNat (pow10 e)) q.den

/-- `parseFloat` on an unsigned character list: longest valid numeric
prefix (digits, optional fraction, optional well-formed exponent);
`Infinity` recognised; no digits at all gives NaN. -/
def parseFloatBody (cs : List Char) : JSNum :=
  if infinityChars.isPrefixOf cs then .inf
  else
    let (ints, r1) := cs.span Char.isDigit
    let (fracs, r2) :=
      match r1 with
      | '.' :: r => r.span Char.isDigit
      | _ => ([], r1)
    if ints.isEmpty && fracs.isEmpty then .nan
    else
      let m := mantissaVal ints fracs
      match r2 with
      | 'e' :: r3 =>
          let (eneg, r4) := splitSign r3
          let (eds, _) := r4.span Char.isDigit
          if eds.isEmpty then .num m else .num (scalePow10 m eneg (digitsToNat eds))
      | 'E' :: r3 =>
          let (eneg, r4) := splitSign r3
          let (eds, _) := r4.span Char.isDigit
          if eds.isEmpty then .num m else .num (scalePow10 m eneg (digitsToNat eds))
      | _ => .num m

/-- JS `parseFloat(s)`: skip leading whitespace, optional sign, then the
longest valid decimal-literal prefix; NaN when no digits are found. -/
def jsParseFloat (s : String) : JSNum :=
  let cs := s.toList.dropWhile jsIsWs
  let (neg, cs) := splitSign cs
  applySign neg (parseFloatBody cs)

/-- JS `parseInt(s)` with no radix argument: skip leading whitespace,
optional sign, `0x`/`0X` switches to hexadecimal, otherwise the longest
decimal-digit prefix; NaN when no digits are found. -/
def jsParseInt (s : String) : JSNum :=
  let cs := s.toList.dropWhile jsIsWs
  let (neg, cs) := splitSign cs
  match cs with
  | '0' :: 'x' :: rest =>
      let (ds, _) := rest.span isHexDigit
      if ds.isEmpty then .nan
      else applySign neg (.num (digitsToNatBase 16 ds))
  | '0' :: 'X' :: rest =>
      let (ds, _) := rest.span isHexDigit
      if ds.isEmpty then .nan
      else applySign neg (.num (digitsToNatBase 16 ds))
  | _ =>
      let (ds, _) := cs.span Char.isDigit
      if ds.isEmpty then .nan
      else applySign neg (.num (digitsToNat ds))

/-- Whole-string decimal literal for `Number`: digits, optional fraction,
optional exponent; nothing may remain unconsumed. -/
def numberDecimal (cs : List Char) : JSNum :=
  let (ints, r1) := cs.span Char.isDigit
  let (fracs, r2) :=
    match r1 with
    | '.' :: r => r.span Char.isDigit
    | _ => ([], r1)
  if ints.isEmpty && fracs.isEmpty then .nan
  else
    let m := mantissaVal ints fracs
    match r2 with
    | [] => .num m
    | 'e' :: r3 =>
        let (eneg, r4) := splitSign r3
        let (eds, r5) := r4.span Char.isDigit
        if eds.isEmpty || !r5.isEmpty then .nan
        else .num (scalePow10 m eneg (digitsToNat eds))
    | 'E' :: r3 =>
        let (eneg, r4) := splitSign r3
        let (eds, r5) := r4.span Char.isDigit
        if eds.isEmpty || !r5.isEmpty then .nan
        else .num (scalePow10 m eneg (digitsToNat eds))
    | _ => .nan

/-- Whole-string radix literal (`0x`, `0o`, `0b` bodies) for `Number`. -/
def numberRadix (base : Nat) (test : Char → Bool) (cs : List Char) : JSNum :=
  if !cs.isEmpty && cs.all test then .num (digitsToNatBase base cs) else .nan

/-- Binary digit test. -/
def isBinDigit (c : Char) : Bool := c = '0' || c = '1'

/-- Octal digit test. -/
def isOctDigit (c : Char) : Bool := '0' ≤ c && c ≤ '7'

/-- JS `Number(s)` on a string: trim both ends; empty gives 0; otherwise
the whole remainder must be a decimal literal with optional sign, a signed
`Infinity`, or an unsigned `0x`/`0o`/`0b` literal; anything else is NaN. -/
def jsNumberOfString (s : String) : JSNum :=
  let cs := ((s.toList.dropWhile jsIsWs).reverse.dropWhile jsIsWs).reverse
  match cs with
  | [] => .num 0
  | '0' :: 'x' :: rest => numberRadix 16 isHexDigit rest
  | '0' :: 'X' :: rest => numberRadix 16 isHexDigit rest
  | '0' :: 'o' :: rest => numberRadix 8 isOctDigit rest
  | '0' :: 'O' :: rest => numberRadix 8 isOctDigit rest
  | '0' :: 'b' :: rest => numberRadix 2 isBinDigit rest
  | '0' :: 'B' :: rest => numberRadix 2 isBinDigit rest
  | _ =>
      let (neg, cs2) := splitSign cs
      if cs2 = infinityChars then applySign neg .inf
      else applySign neg (numberDecimal cs2)

/-- JS `String.prototype.toLowerCase` restricted to ASCII data. -/
def jsToLowerCase (s : String) : String :=
  String.mk (s.toList.map Char.toLower)

/-- JS `String.prototype.trim`: drop whitespace from both ends.  The
source of `AddStudent.tsx` never calls this; it is needed only to state
the specification's normalization sentence for comparison. -/
def jsTrim (s : String) : String :=
  String.mk (((s.toList.dropWhile jsIsWs).reverse.dropWhile jsIsWs).reverse)

/-! ## Wizard data model (`AddStudent.tsx` lines 19--37) -/

/-- The draft record held in the `studentData` state hook: all text-input
fields are strings exactly as typed; `role` is `"student"` or `"parent"`;
`feeStatus` is `""` until selected, then `"paid"`, `"pending"` or
`"overdue"`. -/
structure StudentDraft where
  name : String
  email : String
  role : String
  parentName : String
  parentEmail : String
  cgpa : String
  attendance : String
  feeStatus : String
  backlogs : String
deriving Repr, DecidableEq

/-- The wizard's local state: the `step` hook (starts at 1), the draft,
the `error` message hook and the `isSubmitting` flag. -/
structure WizardState where
  step : Nat
  studentData : StudentDraft
  error : String
  isSubmitting : Bool
deriving Repr, DecidableEq

/-- The initial draft (all fields empty, role `"student"`). -/
def initialDraft : StudentDraft :=
  { name := "", email := "", role := "student", parentName := "",
    parentEmail := "", cgpa := "", attendance := "", feeStatus := "",
    backlogs := "" }

/-- The wizard's initial state: step 1, empty draft, no error, not
submitting. -/
def initialState : WizardState :=
  { step := 1, studentData := initialDraft, error := "", isSubmitting := false }

/-- The authenticated user from `useAuth()`: `id` and `name` strings. -/
structure AuthUser where
  id : String
  name : String
deriving Repr, DecidableEq

/-! ## `handleNext` (`AddStudent.tsx` lines 39--81) -/

/-- `handleNext`: clears the error, then validates the current step.
Step 1 checks name/email truthiness and, for role `parent`, the parent
fields, advancing to step 2 on success.  Step 2 computes
`parseFloat(cgpa)`, `parseInt(attendance)`, `parseInt(backlogs)`, checks
all four academic fields truthy, then the range guards `cgpa < 0 || cgpa
> 10`, `attendance < 0 || attendance > 100`, `backlogs < 0` with JS NaN
comparison semantics, advancing to step 3 on success.  Any other step
only clears the error. -/
def handleNext (s : WizardState) : WizardState :=
  let s := { s with error := "" }
  if s.step = 1 then
    if s.studentData.name = "" || s.studentData.email = "" then
      { s with error := "Please provide student name and email" }
    else if s.studentData.role = "parent" &&
        (s.studentData.parentName = "" || s.studentData.parentEmail = "") then
      { s with error := "Please provide parent information" }
    else
      { s with step := 2 }
  else if s.step = 2 then
    let cgpa := jsParseFloat s.studentData.cgpa
    let attendance := jsParseInt s.studentData.attendance
    let backlogs := jsParseInt s.studentData.backlogs
    if s.studentData.cgpa = "" || s.studentData.attendance = "" ||
        s.studentData.feeStatus = "" || s.studentData.backlogs = "" then
      { s with error := "Please fill in all academic fields" }
    else if cgpa.ltq 0 || cgpa.gtq 10 then
      { s with error := "CGPA must be between 0 and 10" }
    else if attendance.ltq 0 || attendance.gtq 100 then
      { s with error := "Attendance must be between 0 and 100%" }
    else if backlogs.ltq 0 then
      { s with error := "Backlogs cannot be negative" }
    else
      { s with step := 3 }
  else
    s

/-! ## Previous buttons (`AddStudent.tsx` lines 379--386 and 470--478) -/

/-- Whether a Previous control is rendered and enabled in the current
state: the step-2 button is always enabled, the step-3 button carries
`disabled={isSubmitting}`, and step 1 renders no Previous button. -/
def prevEnabled (s : WizardState) : Bool :=
  s.step = 2 || (s.step = 3 && !s.isSubmitting)

/-- Clicking Previous: the step-2 button runs `setStep(1)`, the step-3
button runs `setStep(2)`; nothing else changes. -/
def handlePrev (s : WizardState) : WizardState :=
  if s.step = 2 then { s with step := 1 }
  else if s.step = 3 then { s with step := 2 }
  else s

/-! ## `handleSubmit` (`AddStudent.tsx` lines 83--144) -/

/-- The payload object passed to `apiAddStudent` (lines 90--101). -/
structure CreatePayload where
  full_name : String
  email : String
  account_type : String
  parent_name : Option String
  parent_email : Option String
  current_cgpa : JSNum
  attendance_percentage : JSNum
  fee_status : String
  backlogs : JSNum
  mentor_id : JSNum
deriving Repr, DecidableEq

/-- The record returned by a successful `apiAddStudent` call. -/
structure CreatedStudent where
  id : Int
  full_name : String
  email : String
  current_cgpa : JSNum
  attendance_percentage : JSNum
  fee_status : String
  backlogs : JSNum
deriving Repr, DecidableEq

/-- The payload passed to `apiPredictRisk` (lines 107--112). -/
structure PredictPayload where
  current_cgpa : JSNum
  attendance_percentage : JSNum
  fee_status : String
  backlogs : JSNum
deriving Repr, DecidableEq

/-- The response of a successful `apiPredictRisk` call. -/
structure PredictResponse where
  risk_level : String
deriving Repr, DecidableEq

/-- A counseling note as assembled at lines 129--136. -/
structure CounselingNote where
  id : String
  date : String
  mentorName : String
  note : String
  type : String
  isPrivate : Bool
deriving Repr, DecidableEq

/-- The `StudentRecord` assembled at lines 119--137 and handed to
`onStudentAdded`. -/
structure StudentRecord where
  id : String
  name : String
  email : String
  cgpa : JSNum
  attendance : JSNum
  feeStatus : String
  backlogs : JSNum
  dropoutRisk : String
  riskScore : ℚ
  counselingNotes : List CounselingNote
deriving Repr, DecidableEq

/-- A network call issued during submission, in order. -/
inductive ApiCall where
  | create : CreatePayload → ApiCall
  | predict : PredictPayload → ApiCall
deriving Repr, DecidableEq

/-- Everything observable from one run of `handleSubmit`: the wizard
state afterwards, the ordered list of network calls issued, and the
record passed to `onStudentAdded` (none when the callback did not run). -/
structure SubmitOutcome where
  state : WizardState
  calls : List ApiCall
  callback : Option StudentRecord
deriving Repr, DecidableEq

/-- The argument built for `apiAddStudent` at lines 90--101: raw draft
strings for names/emails, `parseFloat` of cgpa and attendance,
`parseInt` of backlogs, the fee-status vocabulary mapping, and
`Number(user?.id) || 0` for `mentor_id`. -/
def mkCreatePayload (d : StudentDraft) (user : Option AuthUser) : CreatePayload :=
  { full_name := d.name
    email := d.email
    account_type := if d.role = "parent" then "student_and_parent" else "student"
    parent_name := if d.role = "parent" then some d.parentName else none
    parent_email := if d.role = "parent" then some d.parentEmail else none
    current_cgpa := jsParseFloat d.cgpa
    attendance_percentage := jsParseFloat d.attendance
    fee_status :=
      if d.feeStatus = "pending" then "payment_pending"
      else if d.feeStatus = "overdue" then "payment_overdue"
      else "paid"
    backlogs := jsParseInt d.backlogs
    mentor_id := (match user with
      | none => JSNum.nan
      | some u => jsNumberOfString u.id).orZero }

/-- The argument built for `apiPredictRisk` at lines 107--112: the
created record's academic fields. -/
def mkPredictPayload (created : CreatedStudent) : PredictPayload :=
  { current_cgpa := created.current_cgpa
    attendance_percentage := created.attendance_percentage
    fee_status := created.fee_status
    backlogs := created.backlogs }

/-- `handleSubmit` (lines 83--144), with the outcomes of the two awaited
calls supplied as `Except` values (an `error` models a thrown promise
rejection) and today's date string supplied as `today`.  Clears the
error, sets `isSubmitting`, calls `apiAddStudent`; on failure sets the
generic error and clears `isSubmitting`.  On success calls
`apiPredictRisk`, folding its failure into the defaults risk `"low"`,
score 0, and on its success lower-casing `risk_level` and scoring
high→80, medium→50, otherwise 20; then assembles the `StudentRecord`
and invokes `onStudentAdded`. -/
def handleSubmit (s : WizardState) (user : Option AuthUser) (today : String)
    (createRes : Except Unit CreatedStudent)
    (predictRes : Except Unit PredictResponse) : SubmitOutcome :=
  let s0 : WizardState := { s with error := "", isSubmitting := true }
  let payload := mkCreatePayload s.studentData user
  match createRes with
  | .error _ =>
      let sErr : WizardState :=
        { s0 with
          error := "An error occurred while creating the student profile"
          isSubmitting := false }
      { state := sErr
        calls := [ApiCall.create payload]
        callback := none }
  | .ok created =>
      let predictPayload := mkPredictPayload created
      let riskAndScore : String × ℚ :=
        match predictRes with
        | .error _ => ("low", 0)
        | .ok r =>
            let risk := jsToLowerCase r.risk_level
            (risk, if risk = "high" then 80 else if risk = "medium" then 50 else 20)
      let newStudentRecord : StudentRecord :=
        { id := toString created.id
          name := created.full_name
          email := created.email
          cgpa := created.current_cgpa
          attendance := created.attendance_percentage
          feeStatus := s.studentData.feeStatus
          backlogs := created.backlogs
          dropoutRisk := riskAndScore.1
          riskScore := riskAndScore.2
          counselingNotes := [{
            id := "note1"
            date := today
            mentorName := match user with
              | none => "Mentor"
              | some u => if u.name = "" then "Mentor" else u.name
            note := "Student profile created by mentor. Initial academic assessment completed."
            type := "general"
            isPrivate := false }] }
      { state := s0
        calls := [ApiCall.create payload, ApiCall.predict predictPayload]
        callback := some newStudentRecord }

/-- The step invariant: the `step` hook only ever holds 1, 2 or 3. -/
def stepInRange (s : WizardState) : Prop :=
  s.step = 1 ∨ s.step = 2 ∨ s.step = 3

/-! ## Concrete states used by counterexamples and witnesses -/

/-- A concrete draft whose name has surrounding whitespace and whose
email contains upper-case letters, used to compare the submitted payload
with the specification's normalization sentence. -/
def paddedDraft : StudentDraft :=
  { name := " John Doe ", email := "John.Doe@Example.COM", role := "student",
    parentName := "", parentEmail := "", cgpa := "7.5", attendance := "85",
    feeStatus := "pending", backlogs := "0" }

/-- The review-step (step 3) wizard state holding `paddedDraft`. -/
def paddedState : WizardState :=
  { step := 3, studentData := paddedDraft, error := "", isSubmitting := false }

/-- A draft whose CGPA field holds a non-numeric, non-empty string
(`parseFloat` gives NaN) while every other academic field is valid. -/
def nanCgpaDraft : StudentDraft :=
  { name := "John Doe", email := "john@x.edu", role := "student",
    parentName := "", parentEmail := "", cgpa := "x", attendance := "50",
    feeStatus := "paid", backlogs := "0" }

/-- The step-2 wizard state holding `nanCgpaDraft`. -/
def nanCgpaState : WizardState :=
  { step := 2, studentData := nanCgpaDraft, error := "", isSubmitting := false }

/-- The step-2 wizard state holding a draft whose CGPA string denotes
11, outside [0,10]. -/
def highCgpaState : WizardState :=
  { step := 2, studentData := { nanCgpaDraft with cgpa := "11" },
    error := "", isSubmitting := false }

/-- The step-3 state with a submission in flight. -/
def inFlightState : WizardState :=
  { step := 3, studentData := initialDraft, error := "", isSubmitting := true }

/-! ## Theorems -/

/-- C1 counterexample: submitting `paddedDraft` from State 3 passes the
payload `mkCreatePayload paddedDraft none` to the create call, yet its
`full_name` is not the trimmed name and its `email` is not the
lower-cased email: the payload is not the normalized draft the claim
describes. -/
theorem C1_counterexample :
    (handleSubmit paddedState none "2026-10-11"
        (Except.error ()) (Except.error ())).calls.head?
      = some (ApiCall.create (mkCreatePayload paddedDraft none)) ∧
    (mkCreatePayload paddedDraft none).full_name ≠ jsTrim paddedDraft.name ∧
    (mkCreatePayload paddedDraft none).email
      ≠ jsToLowerCase (jsTrim paddedDraft.email) := by
  refine ⟨rfl, ?_, ?_⟩ <;> decide

/-- C1 (amended): the payload passed to the create call is built from
the draft with the string fields passed verbatim (no trimming, no
lower-casing), CGPA and attendance coerced via `parseFloat`, backlogs
via `parseInt`, and the fee status mapped pending→payment_pending,
overdue→payment_overdue, otherwise paid. -/
theorem C1_create_payload (s : WizardState) (user : Option AuthUser) (today : String)
    (createRes : Except Unit CreatedStudent) (predictRes : Except Unit PredictResponse)
    (_h3 : s.step = 3) :
    ∃ p, (handleSubmit s user today createRes predictRes).calls.head?
        = some (ApiCall.create p) ∧
      p.full_name = s.studentData.name ∧
      p.email = s.studentData.email ∧
      p.parent_name = (if s.studentData.role = "parent"
        then some s.studentData.parentName else none) ∧
      p.parent_email = (if s.studentData.role = "parent"
        then some s.studentData.parentEmail else none) ∧
      p.current_cgpa = jsParseFloat s.studentData.cgpa ∧
      p.attendance_percentage = jsParseFloat s.studentData.attendance ∧
      p.backlogs = jsParseInt s.studentData.backlogs ∧
      p.fee_status = (if s.studentData.feeStatus = "pending" then "payment_pending"
        else if s.studentData.feeStatus = "overdue" then "payment_overdue"
        else "paid") := by
  refine ⟨mkCreatePayload s.studentData user, ?_, rfl, rfl, rfl, rfl, rfl, rfl, rfl, rfl⟩
  cases createRes <;> rfl

/-- C1 witness: the amended payload description evaluated on
`paddedDraft` at step 3. -/
theorem C1_create_payload_witness :
    ∃ p, (handleSubmit paddedState none "2026-10-11"
          (Except.error ()) (Except.error ())).calls.head?
        = some (ApiCall.create p) ∧
      p.full_name = paddedDraft.name ∧
      p.email = paddedDraft.email ∧
      p.parent_name = (if paddedDraft.role = "parent"
        then some paddedDraft.parentName else none) ∧
      p.parent_email = (if paddedDraft.role = "parent"
        then some paddedDraft.parentEmail else none) ∧
      p.current_cgpa = jsParseFloat paddedDraft.cgpa ∧
      p.attendance_percentage = jsParseFloat paddedDraft.attendance ∧
      p.backlogs = jsParseInt paddedDraft.backlogs ∧
      p.fee_status = (if paddedDraft.feeStatus = "pending" then "payment_pending"
        else if paddedDraft.feeStatus = "overdue" then "payment_overdue"
        else "paid") :=
  C1_create_payload paddedState none "2026-10-11"
    (Except.error ()) (Except.error ()) rfl

/-- C2 counterexample: on `nanCgpaState` the CGPA string is non-empty
and parses to NaN, yet Next does not stay at step 2 with an error — the
NaN comparisons are all false, so the wizard advances to step 3 with an
empty error message, refuting the claim's NaN case. -/
theorem C2_counterexample :
    jsParseFloat nanCgpaState.studentData.cgpa = JSNum.nan ∧
    nanCgpaState.studentData.cgpa ≠ "" ∧
    ¬ ((handleNext nanCgpaState).step = 2 ∧ (handleNext nanCgpaState).error ≠ "") := by
  refine ⟨by decide, by decide, ?_⟩
  intro ⟨h, _⟩
  exact absurd h (by decide)

/-- C2 (amended): when any academic string actually denotes an
out-of-range value under the code's JS comparisons — `parseFloat(cgpa)`
below 0 or above 10, `parseInt(attendance)` below 0 or above 100, or
`parseInt(backlogs)` below 0 (all false on NaN) — Next from step 2 stays
at step 2 with a non-empty error. -/
theorem C2_range_validation (s : WizardState) (h2 : s.step = 2)
    (h : (jsParseFloat s.studentData.cgpa).ltq 0 = true ∨
         (jsParseFloat s.studentData.cgpa).gtq 10 = true ∨
         (jsParseInt s.studentData.attendance).ltq 0 = true ∨
         (jsParseInt s.studentData.attendance).gtq 100 = true ∨
         (jsParseInt s.studentData.backlogs).ltq 0 = true) :
    (handleNext s).step = 2 ∧ (handleNext s).error ≠ "" := by
  obtain ⟨step, d, err, sub⟩ := s
  simp only [WizardState.step] at h2
  subst h2
  unfold handleNext
  dsimp only at h ⊢
  split_ifs <;> first
    | exact ⟨rfl, by decide⟩
    | simp_all

/-- C2 witness: the amended range validation evaluated at a CGPA of 11. -/
theorem C2_range_validation_witness :
    (handleNext highCgpaState).step = 2 ∧ (handleNext highCgpaState).error ≠ "" :=
  C2_range_validation highCgpaState rfl (Or.inr (Or.inl (by decide)))

/-- C3: when the create call succeeds and the predict call throws, the
record handed to `onStudentAdded` has risk tier `"low"` and risk score 0,
and the wizard's error message stays empty: the prediction failure is
never surfaced. -/
theorem C3_predict_failure_defaults (s : WizardState) (user : Option AuthUser)
    (today : String) (created : CreatedStudent) :
    ∃ rec, (handleSubmit s user today (Except.ok created) (Except.error ())).callback = some rec ∧
      rec.dropoutRisk = "low" ∧ rec.riskScore = 0 ∧
      (handleSubmit s user today (Except.ok created) (Except.error ())).state.error = "" :=
  ⟨_, rfl, rfl, rfl, rfl⟩

/-- C4: when the create call throws, the wizard stays at step 3, a
non-empty error message is set, `onStudentAdded` is not invoked, the
submitting flag is cleared for retry, and the draft is untouched. -/
theorem C4_create_failure (s : WizardState) (user : Option AuthUser) (today : String)
    (predictRes : Except Unit PredictResponse) (h3 : s.step = 3) :
    (handleSubmit s user today (Except.error ()) predictRes).state.step = 3 ∧
    (handleSubmit s user today (Except.error ()) predictRes).state.error ≠ "" ∧
    (handleSubmit s user today (Except.error ()) predictRes).callback = none ∧
    (handleSubmit s user today (Except.error ()) predictRes).state.isSubmitting = false ∧
    (handleSubmit s user today (Except.error ()) predictRes).state.studentData
      = s.studentData := by
  refine ⟨h3, ?_, rfl, rfl, rfl⟩
  show "An error occurred while creating the student profile" ≠ ""
  decide

/-- C4 witness: the create-failure behaviour evaluated at a concrete
step-3 state. -/
theorem C4_create_failure_witness :
    (handleSubmit { initialState with step := 3 } none "2026-10-11"
      (Except.error ()) (Except.error ())).state.step = 3 ∧
    (handleSubmit { initialState with step := 3 } none "2026-10-11"
      (Except.error ()) (Except.error ())).state.error ≠ "" ∧
    (handleSubmit { initialState with step := 3 } none "2026-10-11"
      (Except.error ()) (Except.error ())).callback = none ∧
    (handleSubmit { initialState with step := 3 } none "2026-10-11"
      (Except.error ()) (Except.error ())).state.isSubmitting = false ∧
    (handleSubmit { initialState with step := 3 } none "2026-10-11"
      (Except.error ()) (Except.error ())).state.studentData
      = ({ initialState with step := 3 } : WizardState).studentData :=
  C4_create_failure { initialState with step := 3 } none "2026-10-11"
    (Except.error ()) rfl

/-- C5: the predict-risk call is issued exactly when the create call
succeeds, and then strictly after it: a failing create yields the
one-element call trace `[create]`, a successful create yields
`[create, predict]` with the predict payload built from the created
record. -/
theorem C5_calls_sequenced (s : WizardState) (user : Option AuthUser) (today : String)
    (predictRes : Except Unit PredictResponse) (created : CreatedStudent) :
    (handleSubmit s user today (Except.error ()) predictRes).calls
      = [ApiCall.create (mkCreatePayload s.studentData user)] ∧
    (handleSubmit s user today (Except.ok created) predictRes).calls
      = [ApiCall.create (mkCreatePayload s.studentData user),
         ApiCall.predict (mkPredictPayload created)] :=
  ⟨rfl, rfl⟩

/-- C6 counterexample: at step 3 with a submission in flight the
Previous control is disabled (`disabled={isSubmitting}`), so Previous is
not permitted from every state ≥ 2 in every wizard state. -/
theorem C6_counterexample :
    2 ≤ inFlightState.step ∧ prevEnabled inFlightState = false := by
  decide

/-- C6 (amended): Previous is enabled at step 2 unconditionally and at
step 3 only while no submission is in flight; when enabled it performs
no validation and moves the step back by exactly one, leaving the draft,
the error message and the submitting flag untouched. -/
theorem C6_previous_no_validation (s : WizardState)
    (h : s.step = 2 ∨ (s.step = 3 ∧ s.isSubmitting = false)) :
    prevEnabled s = true ∧
    (handlePrev s).step = s.step - 1 ∧
    (handlePrev s).studentData = s.studentData ∧
    (handlePrev s).error = s.error ∧
    (handlePrev s).isSubmitting = s.isSubmitting := by
  rcases h with h | ⟨h, hsub⟩
  · simp [prevEnabled, handlePrev, h]
  · simp [prevEnabled, handlePrev, h, hsub]

/-- C6 witness: the amended Previous behaviour evaluated at a concrete
step-2 state. -/
theorem C6_previous_no_validation_witness :
    prevEnabled { initialState with step := 2 } = true ∧
    (handlePrev { initialState with step := 2 }).step
      = ({ initialState with step := 2 } : WizardState).step - 1 ∧
    (handlePrev { initialState with step := 2 }).studentData
      = ({ initialState with step := 2 } : WizardState).studentData ∧
    (handlePrev { initialState with step := 2 }).error
      = ({ initialState with step := 2 } : WizardState).error ∧
    (handlePrev { initialState with step := 2 }).isSubmitting
      = ({ initialState with step := 2 } : WizardState).isSubmitting :=
  C6_previous_no_validation { initialState with step := 2 } (Or.inl rfl)

/-- C7: on a successful create and a successful prediction the assembled
record's tier is the lower-cased returned `risk_level` and the score
follows the fixed table high→80, medium→50, otherwise (low)→20; in
particular `risk_level = "High"` yields tier `"high"` and score 80. -/
theorem C7_predict_success_mapping (s : WizardState) (user : Option AuthUser)
    (today : String) (created : CreatedStudent) (r : PredictResponse) :
    ((handleSubmit s user today (Except.ok created) (Except.ok r)).callback.map
        fun rec => (rec.dropoutRisk, rec.riskScore))
      = some (jsToLowerCase r.risk_level,
          if jsToLowerCase r.risk_level = "high" then 80
          else if jsToLowerCase r.risk_level = "medium" then 50 else 20) ∧
    ((handleSubmit s user today (Except.ok created)
        (Except.ok { risk_level := "High" })).callback.map
        fun rec => (rec.dropoutRisk, rec.riskScore))
      = some ("high", 80) := by
  constructor
  · rfl
  · rfl

/-- C8: whenever the prediction succeeds the assembled score is one of
80, 50, 20 and never 0; the tier is always the lower-cased returned
string verbatim, and (last disjunct) unless that string lower-cases to
`"high"` or `"medium"` the score is 20. -/
theorem C8_score_never_zero (s : WizardState) (user : Option AuthUser)
    (today : String) (created : CreatedStudent) (r : PredictResponse) :
    ∃ rec, (handleSubmit s user today (Except.ok created) (Except.ok r)).callback = some rec ∧
      (rec.riskScore = 80 ∨ rec.riskScore = 50 ∨ rec.riskScore = 20) ∧
      rec.riskScore ≠ 0 ∧
      rec.dropoutRisk = jsToLowerCase r.risk_level ∧
      (rec.riskScore = 20 ∨ jsToLowerCase r.risk_level = "high" ∨
        jsToLowerCase r.risk_level = "medium") := by
  refine ⟨_, rfl, ?_, ?_, rfl, ?_⟩ <;>
  · show _
    by_cases h1 : jsToLowerCase r.risk_level = "high" <;>
      by_cases h2 : jsToLowerCase r.risk_level = "medium" <;>
        simp [h1, h2]

/-- C9: the step index is confined to {1, 2, 3}: it is 1 initially, every
Next/Previous transition preserves membership, submission (on both its
paths) never changes it, and Next invoked with the step at 3 leaves the
step at 3. -/
theorem C9_step_invariant (s : WizardState) (user : Option AuthUser) (today : String)
    (createRes : Except Unit CreatedStudent) (predictRes : Except Unit PredictResponse)
    (h : stepInRange s) :
    stepInRange initialState ∧
    stepInRange (handleNext s) ∧
    stepInRange (handlePrev s) ∧
    (handleSubmit s user today createRes predictRes).state.step = s.step ∧
    (handleNext { s with step := 3 }).step = 3 := by
  refine ⟨Or.inl rfl, ?_, ?_, ?_, rfl⟩
  · unfold handleNext stepInRange
    rcases h with h | h | h <;> simp [h] <;> split_ifs <;> simp
  · unfold handlePrev stepInRange
    rcases h with h | h | h <;> simp [h]
  · cases createRes <;> rfl

/-- C9 witness: the invariant instantiated at the initial state with a
failing create call. -/
theorem C9_step_invariant_witness :
    stepInRange initialState ∧
    stepInRange (handleNext initialState) ∧
    stepInRange (handlePrev initialState) ∧
    (handleSubmit initialState none "2026-10-11"
      (Except.error ()) (Except.error ())).state.step = initialState.step ∧
    (handleNext { initialState with step := 3 }).step = 3 :=
  C9_step_invariant initialState none "2026-10-11"
    (Except.error ()) (Except.error ()) (Or.inl rfl)

/-- C10: the `mentor_id` of the create payload is `Number(user?.id) || 0`:
0 when there is no authenticated user, and otherwise the numeric coercion
of the user's id unless that coercion is falsy (NaN or 0), in which case
it defaults to 0. -/
theorem C10_mentor_id (d : StudentDraft) (u : AuthUser) :
    (mkCreatePayload d none).mentor_id = JSNum.num 0 ∧
    (mkCreatePayload d (some u)).mentor_id =
      (if (jsNumberOfString u.id).truthy then jsNumberOfString u.id else JSNum.num 0) := by
  constructor
  · rfl
  · rfl
